import Mathlib

set_option maxHeartbeats 1000000

/-!
Shallow embedding of the token lifecycle manager, request dispatcher and
authorization flow of `src/utils.ts` (Spotify MCP server).

The TypeScript functions are translated into pure Lean functions.  Effects are
made explicit:

* the configuration file on disk becomes an `Option FileData` threaded through
  a small state record `St`;
* HTTP traffic becomes an oracle `Env` giving, for each successive call to the
  token endpoint (`refreshResp`) and to the resource API (`apiResp`), the
  response the network would deliver; `St` counts how many of each call have
  been made, and how many times `response.json()` was invoked on a resource
  response;
* JavaScript truthiness tests (`if (config.accessToken)`, `if (!code)`, ...)
  are modelled by `truthyS` / `truthyI` on `Option`s, where the empty string
  and the number 0 are falsy, mirroring JS.
-/

namespace SpotifyMcp

/-- JS scalar values as they occur in query parameters and JSON bodies. -/
inductive JScalar where
  | undef
  | jnull
  | jstr (s : String)
  | jnum (n : Int)
  | jbool (b : Bool)
deriving DecidableEq, Repr

/-- JS values passed as query-parameter values or request/response bodies:
a scalar or an array of scalars. -/
inductive JValue where
  | scalar (v : JScalar)
  | jarr (elems : List JScalar)
deriving DecidableEq, Repr

/-- The conversion `String(v)` on a JS scalar. -/
def jsStringOfScalar : JScalar → String
  | .undef => "undefined"
  | .jnull => "null"
  | .jstr s => s
  | .jnum n => toString n
  | .jbool b => cond b "true" "false"

/-- How `Array.prototype.join` renders one element: `null` and `undefined`
become the empty string, everything else goes through `String(...)`. -/
def jsJoinElem : JScalar → String
  | .undef => ""
  | .jnull => ""
  | v => jsStringOfScalar v

/-- JS truthiness of an optional string: absent and `""` are falsy. -/
def truthyS : Option String → Bool
  | none => false
  | some s => decide (s ≠ "")

/-- JS truthiness of an optional number: absent and `0` are falsy. -/
def truthyI : Option Int → Bool
  | none => false
  | some n => decide (n ≠ 0)

/-- The in-memory `SpotifyConfig` object of `utils.ts`. -/
structure SpotifyConfig where
  clientId : String
  clientSecret : String
  redirectUri : String
  accessToken : Option String := none
  refreshToken : Option String := none
  expires_at : Option Int := none
deriving DecidableEq, Repr

/-- Contents of the `spotify-config.json` file (every field may be absent). -/
structure FileData where
  clientId : Option String := none
  clientSecret : Option String := none
  redirectUri : Option String := none
  accessToken : Option String := none
  refreshToken : Option String := none
  expires_at : Option Int := none
deriving DecidableEq, Repr

/-- The three `SPOTIFY_*` environment variables (`process.env.X || ""`). -/
structure EnvVars where
  clientId : String := ""
  clientSecret : String := ""
  redirectUri : String := ""
deriving DecidableEq, Repr

/-- A response of the accounts token endpoint, as seen after `response.json()`:
`expires_in = none` models a missing or non-numeric `expires_in` field. -/
structure TokenResponse where
  status : Nat := 200
  bodyText : String := ""
  access_token : Option String := none
  refresh_token : Option String := none
  expires_in : Option Int := none
deriving DecidableEq, Repr

/-- A response of the resource API.  `jsonBody = some v` means
`response.json()` succeeds and yields `v`; `none` means the parse throws.
`errJson` describes `JSON.parse` of the body on the error path: `none` means
the parse throws, `some m?` means it succeeds and `error?.message` is `m?`. -/
structure ApiResponse where
  status : Nat := 200
  contentLength : Option String := none
  jsonBody : Option JValue := none
  bodyText : String := ""
  errJson : Option (Option String) := none
deriving DecidableEq, Repr

/-- The network oracle: the `n`-th call of each kind receives the given
response; `now` is `Date.now()` (held fixed during one logical call). -/
structure Env where
  now : Int := 0
  refreshResp : Nat → TokenResponse := fun _ => {}
  apiResp : Nat → ApiResponse := fun _ => {}

/-- Mutable world threaded through the operations: the config file plus
counters for token-endpoint calls, resource-API calls, and invocations of
`response.json()` on resource responses. -/
structure St where
  file : Option FileData := none
  refreshCalls : Nat := 0
  apiCalls : Nat := 0
  resJsonCalls : Nat := 0
deriving DecidableEq, Repr

/-- All errors thrown by the embedded code, one constructor per distinct
`throw` site / error family of `utils.ts`. -/
inductive SpotifyErr where
  | configMissing
  | authRequired
  | noRefreshToken
  | refreshRejected (status : Nat)
  | tokenEndpoint (status : Nat) (body : String)
  | refreshMissingExpires
  | accessTokenMissing
  | authExpired
  | apiError (status : Nat) (message : String)
  | malformedResponse (status : Nat) (method : String) (pathStr : String)
  | unexpectedStatus (status : Nat)
  | noReqUrl
  | authorizationDenied (e : String)
  | stateMismatch
  | missingCode
  | exchangeFailed (status : Nat) (body : String)
  | exchangeMissingExpires
  | portInUse (port : String)
  | serverError (message : String)
deriving DecidableEq, Repr

instance exceptDecEq {ε α : Type} [DecidableEq ε] [DecidableEq α] :
    DecidableEq (Except ε α)
  | .error x, .error y =>
    if h : x = y then .isTrue (h ▸ rfl)
    else .isFalse (fun hc => h (by cases hc; rfl))
  | .error _, .ok _ => .isFalse (fun hc => Except.noConfusion hc)
  | .ok _, .error _ => .isFalse (fun hc => Except.noConfusion hc)
  | .ok x, .ok y =>
    if h : x = y then .isTrue (h ▸ rfl)
    else .isFalse (fun hc => h (by cases hc; rfl))

/-- The predicate `response.ok` of the Fetch API: status in `[200, 300)`. -/
def respOk (status : Nat) : Bool := decide (200 ≤ status) && decide (status < 300)

/-- The constant `TOKEN_REFRESH_MARGIN` of `utils.ts` (60 seconds in milliseconds). -/
def TOKEN_REFRESH_MARGIN : Int := 60 * 1000

/-- Embedding of `loadSpotifyConfig`: client id/secret/redirect from the environment,
tokens from the file when present (truthy), file values as fallback for the
id fields, then the mandatory-field validation. -/
def loadSpotifyConfigM (ev : EnvVars) (file : Option FileData) :
    Except SpotifyErr SpotifyConfig :=
  let c0 : SpotifyConfig :=
    { clientId := ev.clientId, clientSecret := ev.clientSecret
      redirectUri := ev.redirectUri }
  let c :=
    match file with
    | none => c0
    | some f =>
      let c1 := if truthyS f.accessToken then { c0 with accessToken := f.accessToken } else c0
      let c2 := if truthyS f.refreshToken then { c1 with refreshToken := f.refreshToken } else c1
      let c3 := if truthyI f.expires_at then { c2 with expires_at := f.expires_at } else c2
      let c4 := if c3.clientId = "" && truthyS f.clientId then
          { c3 with clientId := f.clientId.getD "" } else c3
      let c5 := if c4.clientSecret = "" && truthyS f.clientSecret then
          { c4 with clientSecret := f.clientSecret.getD "" } else c4
      if c5.redirectUri = "" && truthyS f.redirectUri then
          { c5 with redirectUri := f.redirectUri.getD "" } else c5
  if c.clientId = "" || c.clientSecret = "" || c.redirectUri = "" then
    .error .configMissing
  else .ok c

/-- Embedding of `saveSpotifyConfig`: preserve truthy id fields already in the file, write
the truthy token fields of the current config, and skip the write entirely
when nothing would be saved. -/
def saveSpotifyConfigM (config : SpotifyConfig) (file : Option FileData) :
    Option FileData :=
  let d0 : FileData := {}
  let d1 :=
    match file with
    | none => d0
    | some f =>
      let a := if truthyS f.clientId then { d0 with clientId := f.clientId } else d0
      let b := if truthyS f.clientSecret then { a with clientSecret := f.clientSecret } else a
      if truthyS f.redirectUri then { b with redirectUri := f.redirectUri } else b
  let d2 := if truthyS config.accessToken then { d1 with accessToken := config.accessToken } else d1
  let d3 := if truthyS config.refreshToken then { d2 with refreshToken := config.refreshToken } else d2
  let d4 := if truthyI config.expires_at then { d3 with expires_at := config.expires_at } else d3
  if !truthyS d4.accessToken && !truthyS d4.refreshToken && !truthyI d4.expires_at
      && !truthyS d4.clientId && !truthyS d4.clientSecret && !truthyS d4.redirectUri then
    file
  else some d4

/-- Embedding of `refreshToken` of `utils.ts`: requires a truthy refresh token, posts to the
token endpoint, classifies 400/401 separately from other failures, requires a
numeric `expires_in`, updates the config (rotating the refresh token only when
the response carries a truthy one) and persists before returning. -/
def refreshTokenM (env : Env) (config : SpotifyConfig) (s : St) :
    Except SpotifyErr SpotifyConfig × St :=
  if !truthyS config.refreshToken then (.error .noRefreshToken, s)
  else
    let resp := env.refreshResp s.refreshCalls
    let s1 : St := { s with refreshCalls := s.refreshCalls + 1 }
    if !respOk resp.status then
      if resp.status = 400 || resp.status = 401 then
        (.error (.refreshRejected resp.status), s1)
      else
        (.error (.tokenEndpoint resp.status resp.bodyText), s1)
    else
      match resp.expires_in with
      | none => (.error .refreshMissingExpires, s1)
      | some ei =>
        let c1 := { config with accessToken := resp.access_token }
        let c2 := if truthyS resp.refresh_token then
            { c1 with refreshToken := resp.refresh_token } else c1
        let c3 := { c2 with expires_at := some (env.now + ei * 1000) }
        (.ok c3, { s1 with file := saveSpotifyConfigM c3 s1.file })

/-- JS object assignment `acc[key] = value` on an insertion-ordered object:
an existing key keeps its position and gets the new value, a new key is
appended. -/
def jsObjectInsert (acc : List (String × String)) (k v : String) :
    List (String × String) :=
  if acc.any (fun p => p.1 = k) then
    acc.map (fun p => if p.1 = k then (k, v) else p)
  else acc ++ [(k, v)]

/-- The `validQueryParams` computation inside `handleSpotifyRequest`:
`Object.entries(queryParams).filter(...).reduce(...)`, dropping
`undefined`/`null` values, joining arrays with `","` and applying
`String(...)` to everything else. -/
def validQueryParams (queryParams : List (String × JValue)) :
    List (String × String) :=
  (queryParams.filter fun p =>
      !decide (p.2 = .scalar .undef) && !decide (p.2 = .scalar .jnull)).foldl
    (fun acc p =>
      jsObjectInsert acc p.1
        (match p.2 with
         | .jarr elems => String.intercalate "," (elems.map jsJoinElem)
         | .scalar v => jsStringOfScalar v))
    []

/-- Lines 267–321 of `utils.ts`: the part of `handleSpotifyRequest` that runs
before the resource HTTP call — require some token, refresh immediately when
only a refresh token is present, refresh proactively when the access token is
within the expiry margin, and fail if no access token survives. -/
def ensureFreshPhase (env : Env) (config : SpotifyConfig) (s : St) :
    Except SpotifyErr SpotifyConfig × St :=
  if !truthyS config.accessToken && !truthyS config.refreshToken then
    (.error .authRequired, s)
  else
    let step1 :=
      if !truthyS config.accessToken && truthyS config.refreshToken then
        refreshTokenM env config s
      else (.ok config, s)
    match step1 with
    | (.error e, s1) => (.error e, s1)
    | (.ok c1, s1) =>
      let step2 :=
        if truthyS c1.accessToken && truthyI c1.expires_at
            && decide (c1.expires_at.getD 0 < env.now + TOKEN_REFRESH_MARGIN) then
          refreshTokenM env c1 s1
        else (.ok c1, s1)
      match step2 with
      | (.error e, s2) => (.error e, s2)
      | (.ok c2, s2) =>
        if !truthyS c2.accessToken then (.error .accessTokenMissing, s2)
        else (.ok c2, s2)

/-- The `errorText` extraction on the dispatcher's error path: the raw body text,
replaced by `error.message` when the body parses as JSON and the message is
truthy. -/
def apiErrorText (resp : ApiResponse) : String :=
  match resp.errJson with
  | some (some m) => if m = "" then resp.bodyText else m
  | _ => resp.bodyText

/-- Outcome of one pass of `handleSpotifyRequest`: either a final result, or
the decision to re-invoke itself after a successful 401-triggered refresh. -/
inductive DispatchOutcome where
  | done (r : Except SpotifyErr (Option JValue))
  | retryNow
deriving Repr

/-- Lines 352–428 of `utils.ts`: send the resource HTTP call and classify the
response (401-retry path, error path, 204, bodiless 2xx patterns, JSON parse
and its failure handling). -/
def classifyResponse (env : Env) (method pathStr : String)
    (body : Option JValue) (retryOnAuthError : Bool) (config : SpotifyConfig)
    (s1 : St) : DispatchOutcome × St :=
  let resp := env.apiResp s1.apiCalls
  let s2 : St := { s1 with apiCalls := s1.apiCalls + 1 }
  if !respOk resp.status then
    if resp.status = 401 && retryOnAuthError then
      match refreshTokenM env config s2 with
      | (.ok _, s3) => (.retryNow, s3)
      | (.error _, s3) => (.done (.error .authExpired), s3)
    else
      (.done (.error (.apiError resp.status (apiErrorText resp))), s2)
  else if resp.status = 204 then (.done (.ok none), s2)
  else if decide (200 ≤ resp.status) && decide (resp.status < 300) then
    if resp.contentLength = some "0" || (resp.status = 200 && method = "PUT") then
      (.done (.ok none), s2)
    else
      let s3 : St := { s2 with resJsonCalls := s2.resJsonCalls + 1 }
      match resp.jsonBody with
      | some v => (.done (.ok (some v)), s3)
      | none =>
        if method = "GET" || method = "POST" || decide (body ≠ none) then
          (.done (.error (.malformedResponse resp.status method pathStr)), s3)
        else (.done (.ok none), s3)
  else (.done (.error (.unexpectedStatus resp.status)), s2)

/-- One full pass of `handleSpotifyRequest` (load, ensure-fresh, HTTP call,
response classification).  `retryNow` is produced exactly on the
`401 && retryOnAuthError` path after a successful refresh; in the source this
is the recursive call with `retryOnAuthError = false`. -/
def dispatchOnce (env : Env) (ev : EnvVars) (method pathStr : String)
    (queryParams : Option (List (String × JValue))) (body : Option JValue)
    (retryOnAuthError : Bool) (s : St) : DispatchOutcome × St :=
  match loadSpotifyConfigM ev s.file with
  | .error e => (.done (.error e), s)
  | .ok config0 =>
    match ensureFreshPhase env config0 s with
    | (.error e, s1) => (.done (.error e), s1)
    | (.ok config, s1) =>
      let _queryString := (queryParams.map validQueryParams).map
        (fun ps => String.intercalate "&" (ps.map fun p => p.1 ++ "=" ++ p.2))
      classifyResponse env method pathStr body retryOnAuthError config s1

/-- Embedding of `handleSpotifyRequest`: one pass, plus at most one re-invocation with
retry disabled.  The inner `retryNow` case is unreachable
(`dispatchOnce_false_no_retry`); it mirrors the fact that the recursive call
in the source passes `retryOnAuthError = false`. -/
def handleSpotifyRequestM (env : Env) (ev : EnvVars) (method pathStr : String)
    (queryParams : Option (List (String × JValue))) (body : Option JValue)
    (retryOnAuthError : Bool) (s : St) :
    Except SpotifyErr (Option JValue) × St :=
  match dispatchOnce env ev method pathStr queryParams body retryOnAuthError s with
  | (.done r, s1) => (r, s1)
  | (.retryNow, s1) =>
    match dispatchOnce env ev method pathStr queryParams body false s1 with
    | (.done r, s2) => (r, s2)
    | (.retryNow, s2) => (.error .authExpired, s2)

/-- Embedding of `exchangeCodeForToken`: non-2xx responses fail, a missing numeric
`expires_in` fails, otherwise the three token fields are returned. -/
def exchangeCodeForTokenM (resp : TokenResponse) :
    Except SpotifyErr (Option String × Option String × Int) :=
  if !respOk resp.status then .error (.exchangeFailed resp.status resp.bodyText)
  else
    match resp.expires_in with
    | none => .error .exchangeMissingExpires
    | some ei => .ok (resp.access_token, resp.refresh_token, ei)

/-- Observable actions of the authorization-flow listener: answering the
browser, calling the code-for-token exchange, closing the HTTP server, and
settling the flow promise. -/
inductive AuthEvent where
  | respond (status : Nat)
  | exchangeCall
  | closeServer
  | resolveFlow
  | rejectFlow (e : SpotifyErr)
deriving DecidableEq, Repr

/-- The parsed URL of one callback request: pathname plus the
`code` / `state` / `error` query parameters (`none` = absent). -/
structure ReqUrl where
  pathname : String
  code : Option String := none
  state : Option String := none
  error : Option String := none
deriving DecidableEq, Repr

/-- The request handler installed by `authorizeSpotify` (lines 480–569 of
`utils.ts`), as the ordered list of actions it performs for one request,
together with the resulting config file.  `req = none` models a request
without a URL. -/
def authCallbackHandler (ev : EnvVars) (xresp : TokenResponse) (now : Int)
    (callbackPath nonce : String) (req : Option ReqUrl)
    (file : Option FileData) : List AuthEvent × Option FileData :=
  match req with
  | none => ([.respond 400, .closeServer, .rejectFlow .noReqUrl], file)
  | some u =>
    if u.pathname ≠ callbackPath then ([.respond 404], file)
    else if truthyS u.error then
      ([.respond 200, .closeServer,
        .rejectFlow (.authorizationDenied (u.error.getD ""))], file)
    else if u.state ≠ some nonce then
      ([.respond 200, .closeServer, .rejectFlow .stateMismatch], file)
    else if !truthyS u.code then
      ([.respond 200, .closeServer, .rejectFlow .missingCode], file)
    else
      match loadSpotifyConfigM ev file with
      | .error e => ([.respond 200, .closeServer, .rejectFlow e], file)
      | .ok cfg =>
        match exchangeCodeForTokenM xresp with
        | .error e =>
          ([.respond 200, .exchangeCall, .closeServer, .rejectFlow e], file)
        | .ok (tok, rt, ei) =>
          let cfg1 :=
            { cfg with
              accessToken := tok
              refreshToken := rt
              expires_at := some (now + ei * 1000) }
          ([.respond 200, .exchangeCall, .closeServer, .resolveFlow],
           saveSpotifyConfigM cfg1 file)

/-- The `server.on("error", ...)` handler of `authorizeSpotify`
(lines 585–602): it rejects the flow — distinguishing `EADDRINUSE` — and
performs no other action. -/
def authServerErrorHandler (errCode port errMessage : String) :
    List AuthEvent :=
  if errCode = "EADDRINUSE" then [.rejectFlow (.portInUse port)]
  else [.rejectFlow (.serverError errMessage)]

/-- An event that settles the flow promise. -/
def isSettle : AuthEvent → Bool
  | .resolveFlow => true
  | .rejectFlow _ => true
  | _ => false

/-- Number of promise settlements in an action list. -/
def settleCount (evs : List AuthEvent) : Nat := (evs.filter isSettle).length

/-- An event that closes the listener. -/
def isClose : AuthEvent → Bool
  | .closeServer => true
  | _ => false

/-- Number of `server.close()` invocations in an action list. -/
def closeCount (evs : List AuthEvent) : Nat := (evs.filter isClose).length

/-- The config update performed by a successful refresh, factored out of
`refreshTokenM` so that lemmas can name it. -/
def refreshUpdate (env : Env) (c : SpotifyConfig) (s : St) (ei : Int) :
    SpotifyConfig :=
  let resp := env.refreshResp s.refreshCalls
  let c1 := { c with accessToken := resp.access_token }
  let c2 := if truthyS resp.refresh_token then
      { c1 with refreshToken := resp.refresh_token } else c1
  { c2 with expires_at := some (env.now + ei * 1000) }

theorem truthyS_of_ne {x : String} (h : x ≠ "") : truthyS (some x) = true := by
  simp [truthyS, h]

theorem truthyI_of_ne {n : Int} (h : n ≠ 0) : truthyI (some n) = true := by
  simp [truthyI, h]

theorem refreshUpdate_accessToken (env : Env) (c : SpotifyConfig) (s : St)
    (ei : Int) :
    (refreshUpdate env c s ei).accessToken =
      (env.refreshResp s.refreshCalls).access_token := by
  cases h : truthyS (env.refreshResp s.refreshCalls).refresh_token <;>
    simp [refreshUpdate, h]

theorem refreshUpdate_expires_at (env : Env) (c : SpotifyConfig) (s : St)
    (ei : Int) :
    (refreshUpdate env c s ei).expires_at = some (env.now + ei * 1000) := by
  cases h : truthyS (env.refreshResp s.refreshCalls).refresh_token <;>
    simp [refreshUpdate, h]

theorem refreshUpdate_refreshToken (env : Env) (c : SpotifyConfig) (s : St)
    (ei : Int) :
    (refreshUpdate env c s ei).refreshToken =
      (if truthyS (env.refreshResp s.refreshCalls).refresh_token then
        (env.refreshResp s.refreshCalls).refresh_token else c.refreshToken) := by
  cases h : truthyS (env.refreshResp s.refreshCalls).refresh_token <;>
    simp [refreshUpdate, h]

/-- A successful refresh returns the updated config and persists it. -/
theorem refreshTokenM_ok (env : Env) (c : SpotifyConfig) (s : St)
    {r : String} {ei : Int}
    (hr : c.refreshToken = some r) (hr' : r ≠ "")
    (hok : respOk (env.refreshResp s.refreshCalls).status = true)
    (hei : (env.refreshResp s.refreshCalls).expires_in = some ei) :
    refreshTokenM env c s =
      (.ok (refreshUpdate env c s ei),
       { s with refreshCalls := s.refreshCalls + 1,
                file := saveSpotifyConfigM (refreshUpdate env c s ei) s.file }) := by
  unfold refreshTokenM refreshUpdate
  simp [hr, truthyS_of_ne hr', hok, hei]

/-- Saving a config whose three token fields are truthy writes a file that
carries exactly those token values. -/
theorem saveSpotifyConfigM_all (c : SpotifyConfig) (file : Option FileData)
    (ha : truthyS c.accessToken = true) (hr : truthyS c.refreshToken = true)
    (he : truthyI c.expires_at = true) :
    ∃ d, saveSpotifyConfigM c file = some d ∧
      d.accessToken = c.accessToken ∧ d.refreshToken = c.refreshToken ∧
      d.expires_at = c.expires_at := by
  unfold saveSpotifyConfigM
  rcases file with _ | f <;>
    simp only [ha, hr, he, if_true] <;>
    [skip; (split <;> split <;> split)] <;>
    simp [ha, hr, he]

/-- Claim C5 (confirmed): the refresh operation fails with
`NoRefreshTokenError` whenever `refreshToken` is absent; when the token
endpoint answers HTTP 400 or 401 it fails with the terminal
`RefreshRejectedError`; on any other non-ok status it fails with the
transient `TokenEndpointError`. -/
theorem c5_refresh_error_taxonomy (env : Env) (c : SpotifyConfig) (s : St) :
    (c.refreshToken = none → refreshTokenM env c s = (.error .noRefreshToken, s))
    ∧ (∀ r : String, c.refreshToken = some r → r ≠ "" →
        (((env.refreshResp s.refreshCalls).status = 400 ∨
            (env.refreshResp s.refreshCalls).status = 401) →
          refreshTokenM env c s =
            (.error (.refreshRejected (env.refreshResp s.refreshCalls).status),
             { s with refreshCalls := s.refreshCalls + 1 }))
        ∧ (respOk (env.refreshResp s.refreshCalls).status = false →
            (env.refreshResp s.refreshCalls).status ≠ 400 →
            (env.refreshResp s.refreshCalls).status ≠ 401 →
            refreshTokenM env c s =
              (.error (.tokenEndpoint (env.refreshResp s.refreshCalls).status
                  (env.refreshResp s.refreshCalls).bodyText),
               { s with refreshCalls := s.refreshCalls + 1 }))) := by
  refine ⟨fun h => ?_, fun r hr hr' => ⟨fun hst => ?_, fun hok h4 h4' => ?_⟩⟩
  · unfold refreshTokenM
    simp [h, truthyS]
  · unfold refreshTokenM
    rcases hst with h | h <;> simp [truthyS_of_ne hr', hr, h, respOk]
  · unfold refreshTokenM
    simp [truthyS_of_ne hr', hr, hok, h4, h4']

/-- Witness for C5: a refresh with no stored refresh token fails with
`NoRefreshTokenError`; one answered by HTTP 500 fails with
`TokenEndpointError`; one answered by HTTP 400 fails with
`RefreshRejectedError`. -/
theorem c5_refresh_error_taxonomy_witness :
    refreshTokenM {} { clientId := "i", clientSecret := "s", redirectUri := "u" } {}
        = (.error .noRefreshToken, {})
    ∧ refreshTokenM { refreshResp := fun _ => { status := 500, bodyText := "boom" } }
        { clientId := "i", clientSecret := "s", redirectUri := "u",
          refreshToken := some "R" } {}
        = (.error (.tokenEndpoint 500 "boom"), { refreshCalls := 1 })
    ∧ refreshTokenM { refreshResp := fun _ => { status := 400 } }
        { clientId := "i", clientSecret := "s", redirectUri := "u",
          refreshToken := some "R" } {}
        = (.error (.refreshRejected 400), { refreshCalls := 1 }) := by
  refine ⟨(c5_refresh_error_taxonomy _ _ _).1 rfl, ?_, ?_⟩
  · exact ((c5_refresh_error_taxonomy _ _ _).2 "R" rfl (by decide)).2
      (by decide) (by decide) (by decide)
  · exact ((c5_refresh_error_taxonomy _ _ _).2 "R" rfl (by decide)).1
      (Or.inl rfl)

/-- Claim C3 (confirmed): a successful refresh updates `accessToken` and
`expires_at` unconditionally, rotates `refreshToken` exactly when the
response supplies a new one, and persists those values before returning. -/
theorem c3_refresh_rotation_persist (env : Env) (c : SpotifyConfig) (s : St)
    (r a : String) (ei : Int)
    (hr : c.refreshToken = some r) (hr' : r ≠ "")
    (hok : respOk (env.refreshResp s.refreshCalls).status = true)
    (hei : (env.refreshResp s.refreshCalls).expires_in = some ei)
    (hat : (env.refreshResp s.refreshCalls).access_token = some a) (ha : a ≠ "")
    (hnow : env.now + ei * 1000 ≠ 0)
    (hrot : (env.refreshResp s.refreshCalls).refresh_token = none ∨
            ∃ t, (env.refreshResp s.refreshCalls).refresh_token = some t ∧ t ≠ "") :
    ∃ c' d,
      refreshTokenM env c s =
        (.ok c', { s with refreshCalls := s.refreshCalls + 1, file := some d })
      ∧ c'.accessToken = some a
      ∧ c'.expires_at = some (env.now + ei * 1000)
      ∧ c'.refreshToken =
          (match (env.refreshResp s.refreshCalls).refresh_token with
           | some t => some t
           | none => some r)
      ∧ d.accessToken = some a
      ∧ d.refreshToken = c'.refreshToken
      ∧ d.expires_at = some (env.now + ei * 1000) := by
  have heq := refreshTokenM_ok env c s hr hr' hok hei
  have hcA : (refreshUpdate env c s ei).accessToken = some a := by
    rw [refreshUpdate_accessToken, hat]
  have hcE : (refreshUpdate env c s ei).expires_at = some (env.now + ei * 1000) :=
    refreshUpdate_expires_at env c s ei
  have hcR : (refreshUpdate env c s ei).refreshToken =
      (match (env.refreshResp s.refreshCalls).refresh_token with
       | some t => some t
       | none => some r) := by
    rw [refreshUpdate_refreshToken]
    rcases hrot with h | ⟨t, ht, ht'⟩
    · simp [h, truthyS, hr]
    · simp [ht, truthyS_of_ne ht']
  have htR : truthyS (refreshUpdate env c s ei).refreshToken = true := by
    rw [hcR]
    rcases hrot with h | ⟨t, ht, ht'⟩
    · simp [h, truthyS_of_ne hr']
    · simp [ht, truthyS_of_ne ht']
  obtain ⟨d, hd, hdA, hdR, hdE⟩ :=
    saveSpotifyConfigM_all (refreshUpdate env c s ei) s.file
      (by rw [refreshUpdate_accessToken, hat]; exact truthyS_of_ne ha)
      htR
      (by rw [hcE]; exact truthyI_of_ne hnow)
  refine ⟨refreshUpdate env c s ei, d, ?_, hcA, hcE, hcR, ?_, ?_, ?_⟩
  · rw [heq, hd]
  · rw [hdA, hcA]
  · rw [hdR]
  · rw [hdE, hcE]

/-- Witness for C3: with a rotating response the persisted refresh token is
the new `"R2"`; with a non-rotating response it stays `"R1"`. -/
theorem c3_refresh_rotation_persist_witness :
    (∃ c' d,
      refreshTokenM
          { now := 1000,
            refreshResp := fun _ =>
              { status := 200, access_token := some "A2",
                refresh_token := some "R2", expires_in := some 3600 } }
          { clientId := "i", clientSecret := "s", redirectUri := "u",
            accessToken := some "A1", refreshToken := some "R1",
            expires_at := some 5 } {} =
        (.ok c', { refreshCalls := 1, file := some d })
      ∧ c'.accessToken = some "A2"
      ∧ c'.expires_at = some 3601000
      ∧ c'.refreshToken = some "R2"
      ∧ d.accessToken = some "A2"
      ∧ d.refreshToken = c'.refreshToken
      ∧ d.expires_at = some 3601000)
    ∧ (∃ c' d,
      refreshTokenM
          { now := 1000,
            refreshResp := fun _ =>
              { status := 200, access_token := some "A2",
                refresh_token := none, expires_in := some 3600 } }
          { clientId := "i", clientSecret := "s", redirectUri := "u",
            accessToken := some "A1", refreshToken := some "R1",
            expires_at := some 5 } {} =
        (.ok c', { refreshCalls := 1, file := some d })
      ∧ c'.accessToken = some "A2"
      ∧ c'.expires_at = some 3601000
      ∧ c'.refreshToken = some "R1"
      ∧ d.accessToken = some "A2"
      ∧ d.refreshToken = c'.refreshToken
      ∧ d.expires_at = some 3601000) := by
  constructor
  · have h := c3_refresh_rotation_persist
      { now := 1000,
        refreshResp := fun _ =>
          { status := 200, access_token := some "A2",
            refresh_token := some "R2", expires_in := some 3600 } }
      { clientId := "i", clientSecret := "s", redirectUri := "u",
        accessToken := some "A1", refreshToken := some "R1",
        expires_at := some 5 } {}
      "R1" "A2" 3600 rfl (by decide) (by decide) rfl rfl (by decide)
      (by decide) (Or.inr ⟨"R2", rfl, by decide⟩)
    exact h
  · have h := c3_refresh_rotation_persist
      { now := 1000,
        refreshResp := fun _ =>
          { status := 200, access_token := some "A2",
            refresh_token := none, expires_in := some 3600 } }
      { clientId := "i", clientSecret := "s", redirectUri := "u",
        accessToken := some "A1", refreshToken := some "R1",
        expires_at := some 5 } {}
      "R1" "A2" 3600 rfl (by decide) (by decide) rfl rfl (by decide)
      (by decide) (Or.inl rfl)
    exact h

/-- When a non-empty access token is present and its expiry lies at or beyond
the 60-second margin, the pre-call phase does nothing at all. -/
theorem ensureFreshPhase_fresh (env : Env) (c : SpotifyConfig) (s : St)
    {a : String} {e : Int}
    (ha : c.accessToken = some a) (ha' : a ≠ "") (he : c.expires_at = some e)
    (hfresh : env.now + TOKEN_REFRESH_MARGIN ≤ e) :
    ensureFreshPhase env c s = (.ok c, s) := by
  have hlt : ¬(e < env.now + TOKEN_REFRESH_MARGIN) := by omega
  unfold ensureFreshPhase
  simp [ha, he, truthyS_of_ne ha', hlt]

/-- Claim C2 (confirmed): with a non-empty access token whose expiry is at
least the 60-second margin away, the pre-call phase performs no network call
and returns the record unchanged; with an expiry inside the margin (and a
refresh token to use, the refresh succeeding with a fresh validity window,
as a loaded record has `expires_at ≠ 0`), it performs exactly one refresh
call and no resource API call. -/
theorem c2_ensureFresh_margin (env : Env) (c : SpotifyConfig) (s : St)
    (e : Int) (he : c.expires_at = some e) :
    (∀ a : String, c.accessToken = some a → a ≠ "" →
      env.now + TOKEN_REFRESH_MARGIN ≤ e →
      ensureFreshPhase env c s = (.ok c, s))
    ∧ (∀ (r : String) (ei : Int), c.refreshToken = some r → r ≠ "" →
      e ≠ 0 → e < env.now + TOKEN_REFRESH_MARGIN →
      respOk (env.refreshResp s.refreshCalls).status = true →
      (env.refreshResp s.refreshCalls).expires_in = some ei →
      TOKEN_REFRESH_MARGIN ≤ ei * 1000 →
      (ensureFreshPhase env c s).2.refreshCalls = s.refreshCalls + 1
      ∧ (ensureFreshPhase env c s).2.apiCalls = s.apiCalls) := by
  constructor
  · intro a ha ha' hfresh
    exact ensureFreshPhase_fresh env c s ha ha' he hfresh
  · intro r ei hr hr' he0 hexp hok hei hfreshei
    have heq := refreshTokenM_ok env c s hr hr' hok hei
    have hnolt : ¬(env.now + ei * 1000 < env.now + TOKEN_REFRESH_MARGIN) := by
      omega
    cases hacc : truthyS c.accessToken
    · -- no (truthy) access token: the immediate-refresh branch fires once
      constructor <;>
        simp [ensureFreshPhase, hacc, hr, truthyS_of_ne hr', heq,
          refreshUpdate_expires_at, hnolt, apply_ite]
    · -- access token present: only the margin branch fires
      constructor <;>
        simp [ensureFreshPhase, hacc, hr, truthyS_of_ne hr', heq, he,
          truthyI_of_ne he0, hexp, apply_ite]

/-- Witness for C2: a record expiring 120 s from now is returned unchanged
with no calls; the same record expiring 1 s from now triggers exactly one
refresh call and no API call. -/
theorem c2_ensureFresh_margin_witness :
    (ensureFreshPhase
        { now := 1000000,
          refreshResp := fun _ =>
            { status := 200, access_token := some "B", expires_in := some 3600 } }
        { clientId := "i", clientSecret := "s", redirectUri := "u",
          accessToken := some "A", refreshToken := some "R",
          expires_at := some 1120000 } {} =
      (.ok { clientId := "i", clientSecret := "s", redirectUri := "u",
             accessToken := some "A", refreshToken := some "R",
             expires_at := some 1120000 }, {}))
    ∧ ((ensureFreshPhase
        { now := 1000000,
          refreshResp := fun _ =>
            { status := 200, access_token := some "B", expires_in := some 3600 } }
        { clientId := "i", clientSecret := "s", redirectUri := "u",
          accessToken := some "A", refreshToken := some "R",
          expires_at := some 1001000 } {}).2.refreshCalls = 1
      ∧ (ensureFreshPhase
          { now := 1000000,
            refreshResp := fun _ =>
              { status := 200, access_token := some "B", expires_in := some 3600 } }
          { clientId := "i", clientSecret := "s", redirectUri := "u",
            accessToken := some "A", refreshToken := some "R",
            expires_at := some 1001000 } {}).2.apiCalls = 0) := by
  constructor
  · exact (c2_ensureFresh_margin _ _ _ 1120000 rfl).1 "A" rfl (by decide) (by decide)
  · exact (c2_ensureFresh_margin _ _ _ 1001000 rfl).2 "R" 3600 rfl (by decide)
      (by decide) (by decide) (by decide) rfl (by decide)

/-- Loading with the three environment variables set and a file holding
truthy token fields yields exactly those values. -/
theorem loadSpotifyConfigM_tokens (ev : EnvVars) (f : FileData)
    (h1 : ev.clientId ≠ "") (h2 : ev.clientSecret ≠ "") (h3 : ev.redirectUri ≠ "")
    (ha : truthyS f.accessToken = true) (hr : truthyS f.refreshToken = true)
    (he : truthyI f.expires_at = true) :
    loadSpotifyConfigM ev (some f) =
      .ok { clientId := ev.clientId, clientSecret := ev.clientSecret,
            redirectUri := ev.redirectUri, accessToken := f.accessToken,
            refreshToken := f.refreshToken, expires_at := f.expires_at } := by
  unfold loadSpotifyConfigM
  simp [ha, hr, he, h1, h2, h3]

/-- With a loadable file whose access token is fresh, one dispatcher pass
reduces to the response-classification stage. -/
theorem dispatchOnce_fresh (env : Env) (ev : EnvVars)
    (method pathStr : String) (qp : Option (List (String × JValue)))
    (body : Option JValue) (retry : Bool) (s : St) (f : FileData)
    (a : String) (e : Int)
    (hfile : s.file = some f)
    (hev1 : ev.clientId ≠ "") (hev2 : ev.clientSecret ≠ "")
    (hev3 : ev.redirectUri ≠ "")
    (ha : f.accessToken = some a) (ha' : a ≠ "")
    (hrt : truthyS f.refreshToken = true)
    (he : f.expires_at = some e) (he0 : e ≠ 0)
    (hfresh : env.now + TOKEN_REFRESH_MARGIN ≤ e) :
    dispatchOnce env ev method pathStr qp body retry s =
      classifyResponse env method pathStr body retry
        { clientId := ev.clientId, clientSecret := ev.clientSecret,
          redirectUri := ev.redirectUri, accessToken := f.accessToken,
          refreshToken := f.refreshToken, expires_at := f.expires_at } s := by
  have hload := loadSpotifyConfigM_tokens ev f hev1 hev2 hev3
    (by rw [ha]; exact truthyS_of_ne ha') hrt
    (by rw [he]; exact truthyI_of_ne he0)
  have hphase := ensureFreshPhase_fresh env
    { clientId := ev.clientId, clientSecret := ev.clientSecret,
      redirectUri := ev.redirectUri, accessToken := f.accessToken,
      refreshToken := f.refreshToken, expires_at := f.expires_at } s
    (show _ = some a from ha) ha' (show _ = some e from he) hfresh
  unfold dispatchOnce
  rw [hfile]
  simp only [hload, hphase]

/-- Claim C6 (confirmed): whenever the transport answers a dispatched request
with status 204, `handleSpotifyRequest` returns `undefined`, for every HTTP
method and whether or not a request body was supplied. -/
theorem c6_status204_undefined (env : Env) (ev : EnvVars)
    (method pathStr : String) (qp : Option (List (String × JValue)))
    (body : Option JValue) (retry : Bool) (s : St) (f : FileData)
    (a : String) (e : Int)
    (hfile : s.file = some f)
    (hev1 : ev.clientId ≠ "") (hev2 : ev.clientSecret ≠ "")
    (hev3 : ev.redirectUri ≠ "")
    (ha : f.accessToken = some a) (ha' : a ≠ "")
    (hrt : truthyS f.refreshToken = true)
    (he : f.expires_at = some e) (he0 : e ≠ 0)
    (hfresh : env.now + TOKEN_REFRESH_MARGIN ≤ e)
    (h204 : (env.apiResp s.apiCalls).status = 204) :
    (handleSpotifyRequestM env ev method pathStr qp body retry s).1 =
      .ok none := by
  have hrun := dispatchOnce_fresh env ev method pathStr qp body retry s f a e
    hfile hev1 hev2 hev3 ha ha' hrt he he0 hfresh
  unfold handleSpotifyRequestM
  rw [hrun]
  unfold classifyResponse
  simp [h204, respOk]

/-- Witness for C6: a DELETE with a request body answered by 204 yields
`undefined`. -/
theorem c6_status204_undefined_witness :
    (handleSpotifyRequestM
        { now := 1000000, apiResp := fun _ => { status := 204 } }
        { clientId := "i", clientSecret := "s", redirectUri := "u" }
        "DELETE" "/v1/me/tracks" none (some (.scalar (.jstr "body"))) true
        { file := some { accessToken := some "A", refreshToken := some "R",
                         expires_at := some 2000000000 } }).1 = .ok none := by
  exact c6_status204_undefined _ _ _ _ _ _ _ _
    { accessToken := some "A", refreshToken := some "R",
      expires_at := some 2000000000 }
    "A" 2000000000 rfl (by decide) (by decide) (by decide) rfl (by decide)
    (by decide) rfl (by decide) (by decide) rfl

/-- Claim C10 (confirmed): on a 2xx response other than 204 the dispatcher
returns `undefined` without calling `response.json()` exactly when the
`Content-Length` header is `"0"` or the status is 200 with method PUT; in
every other such case `response.json()` is invoked. -/
theorem c10_bodiless_combinations (env : Env) (ev : EnvVars)
    (method pathStr : String) (qp : Option (List (String × JValue)))
    (body : Option JValue) (retry : Bool) (s : St) (f : FileData)
    (a : String) (e : Int)
    (hfile : s.file = some f)
    (hev1 : ev.clientId ≠ "") (hev2 : ev.clientSecret ≠ "")
    (hev3 : ev.redirectUri ≠ "")
    (ha : f.accessToken = some a) (ha' : a ≠ "")
    (hrt : truthyS f.refreshToken = true)
    (he : f.expires_at = some e) (he0 : e ≠ 0)
    (hfresh : env.now + TOKEN_REFRESH_MARGIN ≤ e)
    (hok : respOk (env.apiResp s.apiCalls).status = true)
    (h204 : (env.apiResp s.apiCalls).status ≠ 204) :
    ((env.apiResp s.apiCalls).contentLength = some "0" ∨
        ((env.apiResp s.apiCalls).status = 200 ∧ method = "PUT") →
      (handleSpotifyRequestM env ev method pathStr qp body retry s).1 = .ok none
      ∧ (handleSpotifyRequestM env ev method pathStr qp body retry s).2.resJsonCalls
          = s.resJsonCalls)
    ∧ ((env.apiResp s.apiCalls).contentLength ≠ some "0" →
        ¬((env.apiResp s.apiCalls).status = 200 ∧ method = "PUT") →
      (handleSpotifyRequestM env ev method pathStr qp body retry s).2.resJsonCalls
          = s.resJsonCalls + 1) := by
  have hrun := dispatchOnce_fresh env ev method pathStr qp body retry s f a e
    hfile hev1 hev2 hev3 ha ha' hrt he he0 hfresh
  have h2 : 200 ≤ (env.apiResp s.apiCalls).status ∧
      (env.apiResp s.apiCalls).status < 300 := by
    have h := hok
    simp [respOk] at h
    exact h
  constructor
  · intro hcase
    unfold handleSpotifyRequestM
    rw [hrun]
    unfold classifyResponse
    rcases hcase with hcl | ⟨h200, hput⟩
    · constructor <;> simp [hok, h204, h2.1, h2.2, hcl, respOk]
    · constructor <;> simp [hok, h204, h2.1, h2.2, h200, hput, respOk]
  · intro hcl hput
    unfold handleSpotifyRequestM
    rw [hrun]
    unfold classifyResponse
    cases hjson : (env.apiResp s.apiCalls).jsonBody with
    | none =>
      rcases Decidable.em (method = "GET" ∨ method = "POST" ∨ body ≠ none)
        with hM | hM
      · rcases hM with h | h | h <;>
          simp [hok, h204, h2.1, h2.2, hcl, hput, hjson, h, respOk]
      · push_neg at hM
        obtain ⟨hg, hp, hb⟩ := hM
        simp [hok, h204, h2.1, h2.2, hcl, hput, hjson, hg, hp, hb, respOk]
    | some v =>
      simp [hok, h204, h2.1, h2.2, hcl, hput, hjson, respOk]

/-- Witness for C10: a 200 PUT whose body would not parse still yields
`undefined` with no parse attempt, and the same response for DELETE is
parsed (one `response.json()` call). -/
theorem c10_bodiless_combinations_witness :
    ((handleSpotifyRequestM
        { now := 1000000,
          apiResp := fun _ => { status := 200, contentLength := some "7" } }
        { clientId := "i", clientSecret := "s", redirectUri := "u" }
        "PUT" "/v1/me/player" none none true
        { file := some { accessToken := some "A", refreshToken := some "R",
                         expires_at := some 2000000000 } }).1 = .ok none
      ∧ (handleSpotifyRequestM
        { now := 1000000,
          apiResp := fun _ => { status := 200, contentLength := some "7" } }
        { clientId := "i", clientSecret := "s", redirectUri := "u" }
        "PUT" "/v1/me/player" none none true
        { file := some { accessToken := some "A", refreshToken := some "R",
                         expires_at := some 2000000000 } }).2.resJsonCalls = 0)
    ∧ (handleSpotifyRequestM
        { now := 1000000,
          apiResp := fun _ => { status := 200, contentLength := some "7" } }
        { clientId := "i", clientSecret := "s", redirectUri := "u" }
        "DELETE" "/v1/me/tracks" none none true
        { file := some { accessToken := some "A", refreshToken := some "R",
                         expires_at := some 2000000000 } }).2.resJsonCalls = 1 := by
  constructor
  · exact (c10_bodiless_combinations _ _ _ _ _ _ _ _
      { accessToken := some "A", refreshToken := some "R",
        expires_at := some 2000000000 }
      "A" 2000000000 rfl (by decide) (by decide) (by decide) rfl (by decide)
      (by decide) rfl (by decide) (by decide) (by decide) (by decide)).1
      (Or.inr ⟨rfl, rfl⟩)
  · exact (c10_bodiless_combinations _ _ _ _ _ _ _ _
      { accessToken := some "A", refreshToken := some "R",
        expires_at := some 2000000000 }
      "A" 2000000000 rfl (by decide) (by decide) (by decide) rfl (by decide)
      (by decide) rfl (by decide) (by decide) (by decide) (by decide)).2
      (by decide) (by simp)

/-- Claim C7 counterexample: a POST with *no* request body whose 2xx response
fails to parse does **not** degrade to `undefined` — the dispatcher raises
`MalformedResponseError` — although the claim's condition (GET,
POST-with-body, or a supplied body) does not cover a bodiless POST. -/
theorem c7_post_no_body_counterexample :
    (handleSpotifyRequestM
        { now := 1000000,
          apiResp := fun _ => { status := 200, contentLength := some "5",
                                bodyText := "oops" } }
        { clientId := "i", clientSecret := "s", redirectUri := "u" }
        "POST" "/v1/x" none none true
        { file := some { accessToken := some "A", refreshToken := some "R",
                         expires_at := some 2000000000 } }).1 =
      .error (.malformedResponse 200 "POST" "/v1/x")
    ∧ (handleSpotifyRequestM
        { now := 1000000,
          apiResp := fun _ => { status := 200, contentLength := some "5",
                                bodyText := "oops" } }
        { clientId := "i", clientSecret := "s", redirectUri := "u" }
        "POST" "/v1/x" none none true
        { file := some { accessToken := some "A", refreshToken := some "R",
                         expires_at := some 2000000000 } }).1 ≠ .ok none := by
  constructor
  · rfl
  · decide

/-- Claim C7 (corrected): on a 2xx (non-204, non-bodiless-combination)
response whose body fails to parse as JSON, the dispatcher raises
`MalformedResponseError` exactly when the method is GET, the method is POST
(with or without a request body), or any request body was supplied; for all
other methods without a supplied body it returns `undefined`. -/
theorem c7_malformed_response_amended (env : Env) (ev : EnvVars)
    (method pathStr : String) (qp : Option (List (String × JValue)))
    (body : Option JValue) (retry : Bool) (s : St) (f : FileData)
    (a : String) (e : Int)
    (hfile : s.file = some f)
    (hev1 : ev.clientId ≠ "") (hev2 : ev.clientSecret ≠ "")
    (hev3 : ev.redirectUri ≠ "")
    (ha : f.accessToken = some a) (ha' : a ≠ "")
    (hrt : truthyS f.refreshToken = true)
    (he : f.expires_at = some e) (he0 : e ≠ 0)
    (hfresh : env.now + TOKEN_REFRESH_MARGIN ≤ e)
    (hok : respOk (env.apiResp s.apiCalls).status = true)
    (h204 : (env.apiResp s.apiCalls).status ≠ 204)
    (hcl : (env.apiResp s.apiCalls).contentLength ≠ some "0")
    (hput : ¬((env.apiResp s.apiCalls).status = 200 ∧ method = "PUT"))
    (hjson : (env.apiResp s.apiCalls).jsonBody = none) :
    (handleSpotifyRequestM env ev method pathStr qp body retry s).1 =
      (if method = "GET" ∨ method = "POST" ∨ body ≠ none then
        .error (.malformedResponse (env.apiResp s.apiCalls).status method pathStr)
      else .ok none) := by
  have hrun := dispatchOnce_fresh env ev method pathStr qp body retry s f a e
    hfile hev1 hev2 hev3 ha ha' hrt he he0 hfresh
  have h2 : 200 ≤ (env.apiResp s.apiCalls).status ∧
      (env.apiResp s.apiCalls).status < 300 := by
    have h := hok
    simp [respOk] at h
    exact h
  unfold handleSpotifyRequestM
  rw [hrun]
  unfold classifyResponse
  rcases Decidable.em (method = "GET" ∨ method = "POST" ∨ body ≠ none)
    with hM | hM
  · rcases hM with h | h | h <;>
      simp [hok, h204, h2.1, h2.2, hcl, hput, hjson, h, respOk]
  · have hM' := hM
    push_neg at hM'
    obtain ⟨hg, hp, hb⟩ := hM'
    simp [hok, h204, h2.1, h2.2, hcl, hput, hjson, hg, hp, hb, hM, respOk]

/-- Witness for C7 (amended): the same parse failure yields
`MalformedResponseError` for GET and `undefined` for DELETE without body. -/
theorem c7_malformed_response_amended_witness :
    (handleSpotifyRequestM
        { now := 1000000,
          apiResp := fun _ => { status := 200, contentLength := some "5" } }
        { clientId := "i", clientSecret := "s", redirectUri := "u" }
        "GET" "/v1/me" none none true
        { file := some { accessToken := some "A", refreshToken := some "R",
                         expires_at := some 2000000000 } }).1 =
      .error (.malformedResponse 200 "GET" "/v1/me")
    ∧ (handleSpotifyRequestM
        { now := 1000000,
          apiResp := fun _ => { status := 200, contentLength := some "5" } }
        { clientId := "i", clientSecret := "s", redirectUri := "u" }
        "DELETE" "/v1/me" none none true
        { file := some { accessToken := some "A", refreshToken := some "R",
                         expires_at := some 2000000000 } }).1 = .ok none := by
  constructor
  · have h := c7_malformed_response_amended
      { now := 1000000,
        apiResp := fun _ => { status := 200, contentLength := some "5" } }
      { clientId := "i", clientSecret := "s", redirectUri := "u" }
      "GET" "/v1/me" none none true
      { file := some { accessToken := some "A", refreshToken := some "R",
                       expires_at := some 2000000000 } }
      { accessToken := some "A", refreshToken := some "R",
        expires_at := some 2000000000 }
      "A" 2000000000 rfl (by decide) (by decide) (by decide) rfl (by decide)
      (by decide) rfl (by decide) (by decide) (by decide) (by decide)
      (by decide) (by simp) rfl
    simpa using h
  · have h := c7_malformed_response_amended
      { now := 1000000,
        apiResp := fun _ => { status := 200, contentLength := some "5" } }
      { clientId := "i", clientSecret := "s", redirectUri := "u" }
      "DELETE" "/v1/me" none none true
      { file := some { accessToken := some "A", refreshToken := some "R",
                       expires_at := some 2000000000 } }
      { accessToken := some "A", refreshToken := some "R",
        expires_at := some 2000000000 }
      "A" 2000000000 rfl (by decide) (by decide) (by decide) rfl (by decide)
      (by decide) rfl (by decide) (by decide) (by decide) (by decide)
      (by decide) (by simp) rfl
    simpa using h

/-- A 401 with retry enabled and a succeeding refresh yields the retry
signal, after exactly one resource call and one refresh call. -/
theorem classifyResponse_401_retry (env : Env) (method pathStr : String)
    (body : Option JValue) (c : SpotifyConfig) (s1 : St) (r : String) (ei : Int)
    (h401 : (env.apiResp s1.apiCalls).status = 401)
    (hr : c.refreshToken = some r) (hr' : r ≠ "")
    (hok : respOk (env.refreshResp s1.refreshCalls).status = true)
    (hei : (env.refreshResp s1.refreshCalls).expires_in = some ei) :
    classifyResponse env method pathStr body true c s1 =
      (.retryNow,
       { s1 with
         apiCalls := s1.apiCalls + 1
         refreshCalls := s1.refreshCalls + 1
         file := saveSpotifyConfigM
           (refreshUpdate env c { s1 with apiCalls := s1.apiCalls + 1 } ei)
           s1.file }) := by
  have heqR := refreshTokenM_ok env c { s1 with apiCalls := s1.apiCalls + 1 }
    hr hr' hok hei
  unfold classifyResponse
  simp [h401, respOk, heqR]

/-- A 401 with retry disabled is surfaced as `ApiError` with status 401. -/
theorem classifyResponse_401_noretry (env : Env) (method pathStr : String)
    (body : Option JValue) (c : SpotifyConfig) (s1 : St)
    (h401 : (env.apiResp s1.apiCalls).status = 401) :
    classifyResponse env method pathStr body false c s1 =
      (.done (.error (.apiError 401 (apiErrorText (env.apiResp s1.apiCalls)))),
       { s1 with apiCalls := s1.apiCalls + 1 }) := by
  unfold classifyResponse
  simp [h401, respOk]

/-- Chaining rule for the dispatcher: a first pass signalling retry followed
by a second pass that finishes gives the second pass's outcome. -/
theorem handle_eq_of_retryNow (env : Env) (ev : EnvVars)
    (method pathStr : String) (qp : Option (List (String × JValue)))
    (body : Option JValue) (s s' t : St)
    (r : Except SpotifyErr (Option JValue))
    (h1 : dispatchOnce env ev method pathStr qp body true s = (.retryNow, s'))
    (h2 : dispatchOnce env ev method pathStr qp body false s' = (.done r, t)) :
    handleSpotifyRequestM env ev method pathStr qp body true s = (r, t) := by
  unfold handleSpotifyRequestM
  simp [h1, h2]

/-- Claim C1 counterexample: with every resource call answered 401 and the
refresh succeeding, the dispatcher performs one refresh and two HTTP calls
but then fails with `ApiError` status 401 — not with the
authentication-expired error the claim predicts (which the code reserves for
a failing refresh). -/
theorem c1_always401_counterexample :
    (handleSpotifyRequestM
        { now := 1000000,
          refreshResp := fun _ =>
            { status := 200, access_token := some "B", expires_in := some 3600 },
          apiResp := fun _ => { status := 401, bodyText := "Unauthorized" } }
        { clientId := "i", clientSecret := "s", redirectUri := "u" }
        "GET" "/v1/me" none none true
        { file := some { accessToken := some "A", refreshToken := some "R",
                         expires_at := some 2000000000 } }).1 =
      .error (.apiError 401 "Unauthorized")
    ∧ (handleSpotifyRequestM
        { now := 1000000,
          refreshResp := fun _ =>
            { status := 200, access_token := some "B", expires_in := some 3600 },
          apiResp := fun _ => { status := 401, bodyText := "Unauthorized" } }
        { clientId := "i", clientSecret := "s", redirectUri := "u" }
        "GET" "/v1/me" none none true
        { file := some { accessToken := some "A", refreshToken := some "R",
                         expires_at := some 2000000000 } }).1 ≠
      .error .authExpired
    ∧ (handleSpotifyRequestM
        { now := 1000000,
          refreshResp := fun _ =>
            { status := 200, access_token := some "B", expires_in := some 3600 },
          apiResp := fun _ => { status := 401, bodyText := "Unauthorized" } }
        { clientId := "i", clientSecret := "s", redirectUri := "u" }
        "GET" "/v1/me" none none true
        { file := some { accessToken := some "A", refreshToken := some "R",
                         expires_at := some 2000000000 } }).2.refreshCalls = 1
    ∧ (handleSpotifyRequestM
        { now := 1000000,
          refreshResp := fun _ =>
            { status := 200, access_token := some "B", expires_in := some 3600 },
          apiResp := fun _ => { status := 401, bodyText := "Unauthorized" } }
        { clientId := "i", clientSecret := "s", redirectUri := "u" }
        "GET" "/v1/me" none none true
        { file := some { accessToken := some "A", refreshToken := some "R",
                         expires_at := some 2000000000 } }).2.apiCalls = 2 := by
  refine ⟨rfl, by decide, rfl, rfl⟩

/-- Claim C1 (corrected): for a resource call whose every HTTP attempt
returns 401 while refresh succeeds, `handleSpotifyRequest` performs exactly
one refresh attempt and exactly two resource HTTP calls (the second with
retry disabled, so retries never cascade) and then fails with
`ApiError{status := 401}`; `AuthExpiredError` is raised only when the
refresh performed for the retry itself fails. -/
theorem c1_single_retry_amended (env : Env) (ev : EnvVars)
    (method pathStr : String) (qp : Option (List (String × JValue)))
    (body : Option JValue) (s : St) (f : FileData)
    (a0 r0 : String) (e0 : Int) (aresp : ApiResponse) (rresp : TokenResponse)
    (a1 : String) (ei : Int)
    (hfile : s.file = some f)
    (hev1 : ev.clientId ≠ "") (hev2 : ev.clientSecret ≠ "")
    (hev3 : ev.redirectUri ≠ "")
    (hfa : f.accessToken = some a0) (ha0 : a0 ≠ "")
    (hfr : f.refreshToken = some r0) (hr0 : r0 ≠ "")
    (hfe : f.expires_at = some e0) (he0 : env.now + TOKEN_REFRESH_MARGIN ≤ e0)
    (hnow : 0 ≤ env.now)
    (hapi : ∀ n, env.apiResp n = aresp) (h401 : aresp.status = 401)
    (hrr : ∀ n, env.refreshResp n = rresp)
    (hrok : respOk rresp.status = true)
    (hrei : rresp.expires_in = some ei)
    (heif : TOKEN_REFRESH_MARGIN ≤ ei * 1000)
    (hrat : rresp.access_token = some a1) (ha1 : a1 ≠ "")
    (hrrt : rresp.refresh_token = none ∨
            ∃ t, rresp.refresh_token = some t ∧ t ≠ "") :
    (handleSpotifyRequestM env ev method pathStr qp body true s).1 =
      .error (.apiError 401 (apiErrorText aresp))
    ∧ (handleSpotifyRequestM env ev method pathStr qp body true s).2.refreshCalls
        = s.refreshCalls + 1
    ∧ (handleSpotifyRequestM env ev method pathStr qp body true s).2.apiCalls
        = s.apiCalls + 2 := by
  have hmargin : TOKEN_REFRESH_MARGIN = 60000 := by decide
  have he0ne : e0 ≠ 0 := by rw [hmargin] at he0; omega
  have hfr' : truthyS f.refreshToken = true := by
    rw [hfr]; exact truthyS_of_ne hr0
  -- first pass: fresh token, 401, successful refresh, retry signal
  have hrun1 := dispatchOnce_fresh env ev method pathStr qp body true s f a0 e0
    hfile hev1 hev2 hev3 hfa ha0 hfr' hfe he0ne he0
  have hcl1 := classifyResponse_401_retry env method pathStr body
    { clientId := ev.clientId, clientSecret := ev.clientSecret,
      redirectUri := ev.redirectUri, accessToken := f.accessToken,
      refreshToken := f.refreshToken, expires_at := f.expires_at }
    s r0 ei (by rw [hapi]; exact h401) hfr hr0
    (by rw [hrr]; exact hrok) (by rw [hrr]; exact hrei)
  -- the refreshed config and the file it persists
  have hUa : (refreshUpdate env
      { clientId := ev.clientId, clientSecret := ev.clientSecret,
        redirectUri := ev.redirectUri, accessToken := f.accessToken,
        refreshToken := f.refreshToken, expires_at := f.expires_at }
      { s with apiCalls := s.apiCalls + 1 } ei).accessToken = some a1 := by
    rw [refreshUpdate_accessToken, hrr]; exact hrat
  have hUr : truthyS (refreshUpdate env
      { clientId := ev.clientId, clientSecret := ev.clientSecret,
        redirectUri := ev.redirectUri, accessToken := f.accessToken,
        refreshToken := f.refreshToken, expires_at := f.expires_at }
      { s with apiCalls := s.apiCalls + 1 } ei).refreshToken = true := by
    rw [refreshUpdate_refreshToken, hrr]
    rcases hrrt with h | ⟨t, ht, ht'⟩
    · simp [h, truthyS, hfr, hr0]
    · simp [ht, truthyS_of_ne ht']
  have hUe : (refreshUpdate env
      { clientId := ev.clientId, clientSecret := ev.clientSecret,
        redirectUri := ev.redirectUri, accessToken := f.accessToken,
        refreshToken := f.refreshToken, expires_at := f.expires_at }
      { s with apiCalls := s.apiCalls + 1 } ei).expires_at =
      some (env.now + ei * 1000) := refreshUpdate_expires_at _ _ _ _
  have hnewe : env.now + ei * 1000 ≠ 0 := by rw [hmargin] at heif; omega
  obtain ⟨d, hsave, hdA, hdR, hdE⟩ := saveSpotifyConfigM_all
    (refreshUpdate env
      { clientId := ev.clientId, clientSecret := ev.clientSecret,
        redirectUri := ev.redirectUri, accessToken := f.accessToken,
        refreshToken := f.refreshToken, expires_at := f.expires_at }
      { s with apiCalls := s.apiCalls + 1 } ei) s.file
    (by rw [hUa]; exact truthyS_of_ne ha1) hUr
    (by rw [hUe]; exact truthyI_of_ne hnewe)
  -- second pass on the persisted state: fresh again, 401, no retry allowed
  have hrun2 := dispatchOnce_fresh env ev method pathStr qp body false
    { s with
      apiCalls := s.apiCalls + 1
      refreshCalls := s.refreshCalls + 1
      file := saveSpotifyConfigM
        (refreshUpdate env
          { clientId := ev.clientId, clientSecret := ev.clientSecret,
            redirectUri := ev.redirectUri, accessToken := f.accessToken,
            refreshToken := f.refreshToken, expires_at := f.expires_at }
          { s with apiCalls := s.apiCalls + 1 } ei) s.file }
    d a1 (env.now + ei * 1000) hsave hev1 hev2 hev3
    (by rw [hdA, hUa]) ha1 (by rw [hdR]; exact hUr)
    (by rw [hdE, hUe]) hnewe (by rw [hmargin] at heif ⊢; omega)
  have hcl2 := classifyResponse_401_noretry env method pathStr body
    { clientId := ev.clientId, clientSecret := ev.clientSecret,
      redirectUri := ev.redirectUri, accessToken := d.accessToken,
      refreshToken := d.refreshToken, expires_at := d.expires_at }
    { s with
      apiCalls := s.apiCalls + 1
      refreshCalls := s.refreshCalls + 1
      file := saveSpotifyConfigM
        (refreshUpdate env
          { clientId := ev.clientId, clientSecret := ev.clientSecret,
            redirectUri := ev.redirectUri, accessToken := f.accessToken,
            refreshToken := f.refreshToken, expires_at := f.expires_at }
          { s with apiCalls := s.apiCalls + 1 } ei) s.file }
    (by rw [hapi]; exact h401)
  have hfin := handle_eq_of_retryNow env ev method pathStr qp body s _ _ _
    (hrun1.trans hcl1) (hrun2.trans hcl2)
  rw [hfin]
  refine ⟨by rw [hapi], rfl, rfl⟩

/-- Witness for C1 (amended): the concrete always-401 scenario of the
counterexample satisfies the amended statement. -/
theorem c1_single_retry_amended_witness :
    (handleSpotifyRequestM
        { now := 1000000,
          refreshResp := fun _ =>
            { status := 200, access_token := some "B", expires_in := some 3600 },
          apiResp := fun _ => { status := 401, bodyText := "Unauthorized" } }
        { clientId := "i", clientSecret := "s", redirectUri := "u" }
        "PUT" "/v1/me/player" none none true
        { file := some { accessToken := some "A", refreshToken := some "R",
                         expires_at := some 2000000000 } }).1 =
      .error (.apiError 401 "Unauthorized")
    ∧ (handleSpotifyRequestM
        { now := 1000000,
          refreshResp := fun _ =>
            { status := 200, access_token := some "B", expires_in := some 3600 },
          apiResp := fun _ => { status := 401, bodyText := "Unauthorized" } }
        { clientId := "i", clientSecret := "s", redirectUri := "u" }
        "PUT" "/v1/me/player" none none true
        { file := some { accessToken := some "A", refreshToken := some "R",
                         expires_at := some 2000000000 } }).2.refreshCalls = 1
    ∧ (handleSpotifyRequestM
        { now := 1000000,
          refreshResp := fun _ =>
            { status := 200, access_token := some "B", expires_in := some 3600 },
          apiResp := fun _ => { status := 401, bodyText := "Unauthorized" } }
        { clientId := "i", clientSecret := "s", redirectUri := "u" }
        "PUT" "/v1/me/player" none none true
        { file := some { accessToken := some "A", refreshToken := some "R",
                         expires_at := some 2000000000 } }).2.apiCalls = 2 := by
  exact c1_single_retry_amended _ _ "PUT" "/v1/me/player" none none _
    { accessToken := some "A", refreshToken := some "R",
      expires_at := some 2000000000 }
    "A" "R" 2000000000
    { status := 401, bodyText := "Unauthorized" }
    { status := 200, access_token := some "B", expires_in := some 3600 }
    "B" 3600 rfl (by decide) (by decide) (by decide) rfl (by decide) rfl
    (by decide) rfl (by decide) (by decide) (fun _ => rfl) rfl (fun _ => rfl)
    (by decide) rfl (by decide) rfl (by decide) (Or.inl rfl)

/-- Folding the dispatcher's JS object insertion over pairwise-fresh keys
appends the stringified entries in order. -/
theorem validQueryParams_foldl (l : List (String × JValue)) :
    ∀ acc : List (String × String), (l.map Prod.fst).Nodup →
    (∀ p ∈ l, ∀ q ∈ acc, q.1 ≠ p.1) →
    (l.foldl (fun acc p =>
      jsObjectInsert acc p.1
        (match p.2 with
         | .jarr elems => String.intercalate "," (elems.map jsJoinElem)
         | .scalar v => jsStringOfScalar v)) acc) =
      acc ++ l.map (fun p => (p.1,
        match p.2 with
        | .jarr elems => String.intercalate "," (elems.map jsJoinElem)
        | .scalar v => jsStringOfScalar v)) := by
  induction l with
  | nil => intro acc _ _; simp
  | cons p l ih =>
    intro acc hnd hdisj
    have hnd' : (p.1 :: l.map Prod.fst).Nodup := by simpa using hnd
    have hnotin : (acc.any fun q => q.1 = p.1) = false := by
      rw [List.any_eq_false]
      intro q hq
      simpa using hdisj p (List.mem_cons_self p l) q hq
    rw [List.foldl_cons]
    simp only [List.map_cons]
    set V : String := (match p.2 with
        | .jarr elems => String.intercalate "," (elems.map jsJoinElem)
        | .scalar v => jsStringOfScalar v) with hV
    have hstep : jsObjectInsert acc p.1 V = acc ++ [(p.1, V)] := by
      unfold jsObjectInsert
      rw [hnotin]
      simp
    have hdisj' : ∀ p' ∈ l, ∀ q ∈ acc ++ [(p.1, V)], q.1 ≠ p'.1 := by
      intro p' hp' q hq
      rcases List.mem_append.mp hq with hqa | hqp
      · exact hdisj p' (List.mem_cons_of_mem p hp') q hqa
      · have hq1 : q = (p.1, V) := by simpa using hqp
        rw [hq1]
        show p.1 ≠ p'.1
        intro hc
        exact (List.nodup_cons.mp hnd').1
          (by rw [hc]; exact List.mem_map_of_mem Prod.fst hp')
    rw [hstep, ih _ hnd'.of_cons hdisj']
    simp

/-- Claim C8 (confirmed): for a query mapping with pairwise-distinct keys
(a JS object), the dispatcher's serialization drops `undefined`/`null`
values, joins arrays with commas, stringifies the rest via `String(...)`,
and keeps insertion order with no sorting. -/
theorem c8_query_serialization (qp : List (String × JValue))
    (hnd : (qp.map Prod.fst).Nodup) :
    validQueryParams qp =
      (qp.filter fun p =>
          !decide (p.2 = .scalar .undef) && !decide (p.2 = .scalar .jnull)).map
        (fun p => (p.1,
          match p.2 with
          | .jarr elems => String.intercalate "," (elems.map jsJoinElem)
          | .scalar v => jsStringOfScalar v)) := by
  unfold validQueryParams
  rw [validQueryParams_foldl _ []]
  · simp
  · exact ((List.filter_sublist qp).map Prod.fst).nodup hnd
  · intro p _ q hq
    simp at hq

/-- Witness for C8: a mapping with a string, an array, a `null` and a number
serializes to the expected ordered pair list. -/
theorem c8_query_serialization_witness :
    validQueryParams
        [("b", .scalar (.jstr "x")), ("a", .jarr [.jstr "1", .jnum 2]),
         ("c", .scalar .jnull), ("d", .scalar (.jnum 7))] =
      [("b", "x"), ("a", "1,2"), ("d", "7")] := by
  rw [c8_query_serialization _ (by decide)]
  rfl

/-- Claim C4 (confirmed): a callback to the redirect path with no `error`
parameter whose `state` differs from the generated nonce answers the browser,
closes the listener exactly once, rejects with `StateMismatchError`, and
never invokes the code-for-token exchange. -/
theorem c4_state_mismatch (ev : EnvVars) (xresp : TokenResponse) (now : Int)
    (cbPath nonce : String) (u : ReqUrl) (file : Option FileData)
    (hpath : u.pathname = cbPath) (herr : u.error = none)
    (hstate : u.state ≠ some nonce) :
    authCallbackHandler ev xresp now cbPath nonce (some u) file =
      ([.respond 200, .closeServer, .rejectFlow .stateMismatch], file)
    ∧ .exchangeCall ∉
        (authCallbackHandler ev xresp now cbPath nonce (some u) file).1
    ∧ closeCount
        (authCallbackHandler ev xresp now cbPath nonce (some u) file).1 = 1 := by
  have h1 : authCallbackHandler ev xresp now cbPath nonce (some u) file =
      ([.respond 200, .closeServer, .rejectFlow .stateMismatch], file) := by
    unfold authCallbackHandler
    simp [hpath, herr, hstate, truthyS]
  refine ⟨h1, ?_, ?_⟩
  · rw [h1]
    simp
  · rw [h1]
    simp [closeCount, isClose, List.filter]

/-- Witness for C4: a concrete mismatching callback is rejected with
`StateMismatchError`, one close, no exchange. -/
theorem c4_state_mismatch_witness :
    authCallbackHandler
        { clientId := "i", clientSecret := "s", redirectUri := "u" }
        { status := 200, expires_in := some 3600 } 5 "/callback" "NONCE"
        (some { pathname := "/callback", code := some "C", state := some "WRONG" })
        none =
      ([.respond 200, .closeServer, .rejectFlow .stateMismatch], none)
    ∧ .exchangeCall ∉
        (authCallbackHandler
          { clientId := "i", clientSecret := "s", redirectUri := "u" }
          { status := 200, expires_in := some 3600 } 5 "/callback" "NONCE"
          (some { pathname := "/callback", code := some "C", state := some "WRONG" })
          none).1
    ∧ closeCount
        (authCallbackHandler
          { clientId := "i", clientSecret := "s", redirectUri := "u" }
          { status := 200, expires_in := some 3600 } 5 "/callback" "NONCE"
          (some { pathname := "/callback", code := some "C", state := some "WRONG" })
          none).1 = 1 :=
  c4_state_mismatch _ _ _ _ _ _ _ rfl rfl (by decide)

/-- Claim C9 counterexample: the `server.on("error")` exit path — e.g. port
already in use — settles the flow but performs no `server.close()` at all,
so it is not true that every exit path shuts the listener down exactly
once. -/
theorem c9_server_error_no_close_counterexample :
    settleCount (authServerErrorHandler "EADDRINUSE" "4321" "listen error") = 1
    ∧ closeCount (authServerErrorHandler "EADDRINUSE" "4321" "listen error") = 0 := by
  decide

/-- Claim C9 (corrected): every exit of the callback request handler settles
the flow at most once and closes the listener exactly as many times as it
settles (so each settling exit closes exactly once, and the non-exit 404
path closes nothing); the transport-error handler, however, settles the flow
once while performing zero closes. -/
theorem c9_shutdown_amended (ev : EnvVars) (xresp : TokenResponse) (now : Int)
    (cbPath nonce : String) (req : Option ReqUrl) (file : Option FileData) :
    (settleCount (authCallbackHandler ev xresp now cbPath nonce req file).1 ≤ 1
      ∧ closeCount (authCallbackHandler ev xresp now cbPath nonce req file).1 =
          settleCount (authCallbackHandler ev xresp now cbPath nonce req file).1)
    ∧ (∀ errCode port errMessage : String,
        settleCount (authServerErrorHandler errCode port errMessage) = 1
        ∧ closeCount (authServerErrorHandler errCode port errMessage) = 0) := by
  constructor
  · unfold authCallbackHandler
    rcases req with _ | u
    · simp [settleCount, closeCount, isSettle, isClose, List.filter]
    · repeat' split
      all_goals simp [settleCount, closeCount, isSettle, isClose, List.filter]
  · intro errCode port errMessage
    unfold authServerErrorHandler
    split
    all_goals simp [settleCount, closeCount, isSettle, isClose, List.filter]

end SpotifyMcp
